import Mathlib

/-!
Shallow embedding of `src/derp/derphttp/derphttp_client.go` (package derphttp),
the DERP-over-HTTP client: connection lifecycle, upgrade handshake, lock-guarded
state, and the teardown/reconnect contract.

Modelling conventions:
- Raw network connections (`net.Conn`) and DERP protocol sessions (`*derp.Client`)
  are opaque handles, modelled as `Nat` identifiers supplied by the environment.
- All fallible I/O steps (dial, request write, flush, response read, session
  construction, session send/recv) are resolved by an explicit environment
  record (`ConnectEnv` plus per-call send/recv outcomes); the functions below
  are the deterministic control flow of the Go source over those outcomes.
- Every operation additionally returns the list of I/O events it performed,
  so "no new I/O" and "exactly one dial/handshake" claims are statable.
- Go `error` values are modelled by `Err`: the distinguished `ErrClientClosed`
  value plus message-carrying errors built by `fmt.Errorf`.
- The code is sequential here: locks (`clientMu`, `netConnMu`) serialize the
  critical sections, so a single public operation is modelled as one atomic
  state transition.
-/

set_option autoImplicit false

namespace Derphttp

/-- Go `error` values as used by the client: the sentinel
`ErrClientClosed = errors.New("derphttp.Client closed")` and
`fmt.Errorf`-produced errors carrying their formatted message. -/
inductive Err where
  | clientClosed : Err
  | mk (msg : String) : Err
deriving DecidableEq, Repr

/-- The message a Go `error` formats to with `%v`. -/
def Err.message : Err → String
  | .clientClosed => "derphttp.Client closed"
  | .mk s => s

/-- A parsed `*url.URL` as the client uses it: scheme, hostname, the optional
explicit port, and path.  Mirrors Go, where `URL.Host` is `host` or `host:port`
and `URL.Port()` extracts the explicit port (empty string when absent). -/
structure URL where
  scheme : String
  hostname : String
  port : Option String
  path : String
deriving DecidableEq, Repr

/-- Go `url.URL.Host`: the host component, including the explicit port when
one was given in the URL. -/
def URL.Host (u : URL) : String :=
  match u.port with
  | some p => u.hostname ++ ":" ++ p
  | none => u.hostname

/-- Go `url.URL.Port()`: the explicit port, or `""` when the URL has none. -/
def URL.Port (u : URL) : String :=
  match u.port with
  | some p => p
  | none => ""

/-- Go `net.JoinHostPort(host, port)`: produces `host:port`, bracketing the
host as `[host]:port` when it already contains a colon. -/
def joinHostPort (host port : String) : String :=
  if ':' ∈ host.data then "[" ++ host ++ "]:" ++ port
  else host ++ ":" ++ port

/-- The dial address the `connect` method computes (derphttp_client.go lines
102-115): for scheme `https`, `net.JoinHostPort(c.url.Host, port)` with `port`
defaulting to `"443"` when the URL gives none; for any other scheme, plain
`c.url.Host` as passed to `net.Dial`. -/
def dialAddr (u : URL) : String :=
  if u.scheme = "https" then
    joinHostPort u.Host (if u.Port = "" then "443" else u.Port)
  else
    u.Host

/-- An `*http.Response` as far as the client inspects it: status code and the
bytes of its body. -/
structure Resp where
  statusCode : Nat
  body : String
deriving DecidableEq, Repr

/-- The HTTP upgrade request as `connect` builds it (derphttp_client.go lines
126-131): method, the request target that `req.Write` serializes (the URL's
request-URI, i.e. its path), and the header fields set on it. -/
structure Request where
  method : String
  target : String
  headers : List (String × String)
deriving DecidableEq, Repr

/-- The request `connect` sends: `http.NewRequest("GET", c.url.String(), nil)`
followed by `req.Header.Set("Upgrade", "WebSocket")` and
`req.Header.Set("Connection", "Upgrade")`; `req.Write` emits the URL's path as
the request target. -/
def buildRequest (u : URL) : Request :=
  { method := "GET"
  , target := u.path
  , headers := [("Upgrade", "WebSocket"), ("Connection", "Upgrade")] }

/-- Observable I/O performed by an operation, in order. -/
inductive IOEvent where
  | dial (tls : Bool) (addr : String) : IOEvent
  | closeConn (conn : Nat) : IOEvent
  | writeReq (req : Request) : IOEvent
  | flush : IOEvent
  | readResp : IOEvent
  | sessionNew : IOEvent
  | sessionSend : IOEvent
  | sessionRecv : IOEvent
deriving DecidableEq, Repr

deriving instance DecidableEq for Except

/-- Environment oracle for one pass through `connect`: the outcome each
fallible I/O step would have if reached.  A `dialResult` of `ok conn` yields
the raw connection handle `conn`; `newClientResult` of `ok sess` yields the
DERP session handle `sess` from `derp.NewClient`. -/
structure ConnectEnv where
  dialResult : Except Err Nat
  writeResult : Option Err
  flushResult : Option Err
  readResult : Except Err Resp
  newClientResult : Except Err Nat
deriving DecidableEq, Repr

/-- The mutable state of a `derphttp.Client`: the one-shot closed signal
(`closed chan struct{}`, modelled as the flag "the channel has been closed"),
the raw transport handle `netConn`, the DERP session handle `client`, and the
stored handshake response `resp`.  The immutable fields `privateKey`, `url`
(and the log sink, which carries no state) ride along. -/
structure ClientState where
  privateKey : Nat
  url : URL
  closed : Bool
  netConn : Option Nat
  client : Option Nat
  resp : Option Resp
deriving DecidableEq, Repr

/-- Function `NewClient` (derphttp_client.go lines 53-66), after a successful URL
parse: all connection state absent, closed signal not fired.  URL parsing
itself is `url.Parse` from the standard library and out of scope; the client
is constructed from the parsed URL. -/
def NewClient (privateKey : Nat) (u : URL) : ClientState :=
  { privateKey := privateKey
  , url := u
  , closed := false
  , netConn := none
  , client := none
  , resp := none }

/-- The `connect` method (derphttp_client.go lines 75-157).  Returns the
`(*derp.Client, error)` pair (as `Except`), the state after the call, and the
I/O events performed, in order.

Control flow transcribed from the source:
- closed-channel check first: return `ErrClientClosed`;
- if `c.client != nil`, return it, no I/O;
- deferred handler: on error, wrap it as `"<caller> connect: <err>"` and close
  `netConn` if one was dialed;
- dial (TLS to `joinHostPort` address for https with default port 443,
  plain TCP to `c.url.Host` otherwise); on success store it in `c.netConn`
  (the failure paths below do NOT clear this field — only the deferred
  `netConn.Close()` runs);
- write the upgrade request, flush, read the response;
- non-101 status: read and close the body, fail with
  `"GET failed: <nil>: <body>"` (the `%v` verb formats the nil `err` from the
  successful `ReadResponse`);
- on 101: replace the body with an empty closed reader, build the DERP client;
  on success store `c.resp` and `c.client`. -/
def connect (env : ConnectEnv) (caller : String) (st : ClientState) :
    Except Err Nat × ClientState × List IOEvent :=
  if st.closed then
    (.error .clientClosed, st, [])
  else
    match st.client with
    | some cl => (.ok cl, st, [])
    | none =>
      let wrap : Err → Err := fun e => .mk (caller ++ " connect: " ++ e.message)
      let isTLS : Bool := st.url.scheme = "https"
      let dialEv : IOEvent := .dial isTLS (dialAddr st.url)
      match env.dialResult with
      | .error e =>
        -- netConn is still nil, so the deferred handler only wraps the error.
        (.error (wrap e), st, [dialEv])
      | .ok conn =>
        let st1 : ClientState := { st with netConn := some conn }
        let req : Request := buildRequest st.url
        match env.writeResult with
        | some e =>
          (.error (wrap e), st1, [dialEv, .writeReq req, .closeConn conn])
        | none =>
          match env.flushResult with
          | some e =>
            (.error (wrap e), st1,
              [dialEv, .writeReq req, .flush, .closeConn conn])
          | none =>
            match env.readResult with
            | .error e =>
              (.error (wrap e), st1,
                [dialEv, .writeReq req, .flush, .readResp, .closeConn conn])
            | .ok resp =>
              if resp.statusCode ≠ 101 then
                (.error (wrap (.mk ("GET failed: <nil>: " ++ resp.body))), st1,
                  [dialEv, .writeReq req, .flush, .readResp, .closeConn conn])
              else
                match env.newClientResult with
                | .error e =>
                  (.error (wrap e), st1,
                    [dialEv, .writeReq req, .flush, .readResp, .sessionNew,
                      .closeConn conn])
                | .ok sess =>
                  (.ok sess,
                    { st1 with
                        resp := some { statusCode := resp.statusCode, body := "" }
                      , client := some sess },
                    [dialEv, .writeReq req, .flush, .readResp, .sessionNew])

/-- The private `close` method (derphttp_client.go lines 195-214): close the
raw transport if present; then, only when a session exists, clear `resp`,
`client`, and `netConn`.  When `c.client == nil` it returns early WITHOUT
clearing `c.netConn`. -/
def closeInternal (st : ClientState) : ClientState × List IOEvent :=
  let evs : List IOEvent :=
    match st.netConn with
    | some conn => [.closeConn conn]
    | none => []
  match st.client with
  | none => (st, evs)
  | some _ => ({ st with resp := none, client := none, netConn := none }, evs)

/-- Public `Connect` (derphttp_client.go lines 70-73): run `connect` and
discard the session handle. -/
def Connect (env : ConnectEnv) (st : ClientState) :
    Option Err × ClientState × List IOEvent :=
  match connect env "derphttp.Client.Connect" st with
  | (.error e, st1, tr) => (some e, st1, tr)
  | (.ok _, st1, tr) => (none, st1, tr)

/-- Public `Send` (derphttp_client.go lines 159-168): connect (lazily), then
delegate to the session's send; when the session send fails, the private
`close` runs.  Note the Go scoping slip: `if err := client.Send(dstKey, b);
err != nil` (line 164) declares a NEW `err` scoped to that if statement, so
the final `return err` (line 167) returns the OUTER `err` — which is nil
after the successful connect.  A failing session send therefore tears down
the connection state yet returns nil to the caller.  `sendResult` is the
external DERP session's outcome for this send; `dstKey` and `payload` are
forwarded to it and do not influence the client's own control flow. -/
def Send (env : ConnectEnv) (sendResult : Option Err)
    (dstKey : Nat) (payload : List Nat) (st : ClientState) :
    Option Err × ClientState × List IOEvent :=
  match connect env "derphttp.Client.Send" st with
  | (.error e, st1, tr) => (some e, st1, tr)
  | (.ok _, st1, tr) =>
    match sendResult with
    | none => (none, st1, tr ++ [.sessionSend])
    | some _ =>
      let (st2, evs) := closeInternal st1
      (none, st2, tr ++ [.sessionSend] ++ evs)

/-- Public `Recv` (derphttp_client.go lines 170-180): connect (lazily), then
delegate to the session's receive; on failure run the private `close`.  The
`(m, err)` pair is returned as the session produced it; `recvResult` is the
external session's outcome (`ok m` or an error). -/
def Recv (env : ConnectEnv) (recvResult : Except Err Nat) (st : ClientState) :
    Except Err Nat × ClientState × List IOEvent :=
  match connect env "derphttp.Client.Recv" st with
  | (.error e, st1, tr) => (.error e, st1, tr)
  | (.ok _, st1, tr) =>
    match recvResult with
    | .ok m => (.ok m, st1, tr ++ [.sessionRecv])
    | .error e =>
      let (st2, evs) := closeInternal st1
      (.error e, st2, tr ++ [.sessionRecv] ++ evs)

/-- Public `Close` (derphttp_client.go lines 184-193): if the closed channel
is already closed, fail with `ErrClientClosed`; otherwise close the channel
(set the flag) and run the private `close`. -/
def Close (st : ClientState) : Option Err × ClientState × List IOEvent :=
  if st.closed then
    (some .clientClosed, st, [])
  else
    let (st1, evs) := closeInternal { st with closed := true }
    (none, st1, evs)

/-- One public operation on the client, with its environment baked in. -/
inductive Op where
  | connectOp (env : ConnectEnv) : Op
  | sendOp (env : ConnectEnv) (sendResult : Option Err)
      (dstKey : Nat) (payload : List Nat) : Op
  | recvOp (env : ConnectEnv) (recvResult : Except Err Nat) : Op
  | closeOp : Op

/-- The state after one public operation. -/
def stepState (op : Op) (st : ClientState) : ClientState :=
  match op with
  | .connectOp env => (Connect env st).2.1
  | .sendOp env sr d p => (Send env sr d p st).2.1
  | .recvOp env rr => (Recv env rr st).2.1
  | .closeOp => (Close st).2.1

/-- The state after a sequence of public operations. -/
def run (ops : List Op) (st : ClientState) : ClientState :=
  ops.foldl (fun s op => stepState op s) st

/-- The handle invariant of the amended C3: the session handle is never set
without the raw transport handle. -/
def handleInv (st : ClientState) : Prop :=
  st.client.isSome → st.netConn.isSome

instance (st : ClientState) : Decidable (handleInv st) := by
  unfold handleInv; infer_instance

/-- A `ConnectEnv` in which every stage succeeds, dialing `conn`, reading the
101 response `r`, and constructing session `sess`. -/
def envOK (env : ConnectEnv) (conn sess : Nat) (r : Resp) : Prop :=
  env.dialResult = .ok conn ∧ env.writeResult = none ∧
  env.flushResult = none ∧ env.readResult = .ok r ∧
  r.statusCode = 101 ∧ env.newClientResult = .ok sess

instance (env : ConnectEnv) (conn sess : Nat) (r : Resp) :
    Decidable (envOK env conn sess r) := by
  unfold envOK; infer_instance

/-- Number of dial attempts in a trace. -/
def countDials (tr : List IOEvent) : Nat :=
  tr.countP fun ev => match ev with
    | .dial _ _ => true
    | _ => false

/-- Number of delegated session-send attempts in a trace. -/
def countSessionSends (tr : List IOEvent) : Nat :=
  tr.countP fun ev => match ev with
    | .sessionSend => true
    | _ => false

/-- Concrete endpoint `http://relay.example/derp` used to instantiate the
theorems below. -/
def exampleURL : URL :=
  { scheme := "http", hostname := "relay.example", port := none, path := "/derp" }

/-- A concrete environment in which every connect stage succeeds: the dial
yields connection 7, the server answers 101, and `derp.NewClient` yields
session 9. -/
def exampleEnvOK : ConnectEnv :=
  { dialResult := .ok 7
  , writeResult := none
  , flushResult := none
  , readResult := .ok (Resp.mk 101 "")
  , newClientResult := .ok 9 }

/-- A concrete environment in which the server rejects the upgrade: the dial
yields connection 7 but the response is a 200 with a diagnostic body. -/
def exampleEnvReject : ConnectEnv :=
  { dialResult := .ok 7
  , writeResult := none
  , flushResult := none
  , readResult := .ok (Resp.mk 200 "not a derp server")
  , newClientResult := .error (.mk "unreachable") }

/-- A concrete environment in which the handshake flush fails after a
successful dial of connection 4. -/
def exampleEnvFlushFail : ConnectEnv :=
  { dialResult := .ok 4
  , writeResult := none
  , flushResult := some (.mk "broken pipe")
  , readResult := .error (.mk "unreachable")
  , newClientResult := .error (.mk "unreachable") }

/-- A concrete environment in which the dial itself fails. -/
def exampleEnvDialFail : ConnectEnv :=
  { dialResult := .error (.mk "dial tcp: lookup failed")
  , writeResult := none
  , flushResult := none
  , readResult := .error (.mk "unreachable")
  , newClientResult := .error (.mk "unreachable") }

/-- Concrete endpoint `https://relay.example:8443/derp`: an https URL with an
explicit port. -/
def httpsPortURL : URL :=
  { scheme := "https", hostname := "relay.example", port := some "8443"
  , path := "/derp" }

/-- Concrete endpoint `https://relay.example/derp`: an https URL with no
explicit port. -/
def httpsNoPortURL : URL :=
  { scheme := "https", hostname := "relay.example", port := none
  , path := "/derp" }

/-- The self-healing outcome at a client state: a next `Send`, `Recv`, or
`Connect` in the fully healthy environment `env2` each succeeds, performs
exactly one fresh dial/handshake, and ends holding `env2`'s connection and
session handles. -/
def selfHeals (st1 : ClientState) (env2 : ConnectEnv)
    (conn2 sess2 dstKey2 m : Nat) (payload2 : List Nat) : Prop :=
  (Send env2 none dstKey2 payload2 st1).1 = none ∧
  (Send env2 none dstKey2 payload2 st1).2.1.client = some sess2 ∧
  (Send env2 none dstKey2 payload2 st1).2.1.netConn = some conn2 ∧
  countDials (Send env2 none dstKey2 payload2 st1).2.2 = 1 ∧
  (Recv env2 (.ok m) st1).1 = .ok m ∧
  (Recv env2 (.ok m) st1).2.1.client = some sess2 ∧
  (Recv env2 (.ok m) st1).2.1.netConn = some conn2 ∧
  countDials (Recv env2 (.ok m) st1).2.2 = 1 ∧
  (Connect env2 st1).1 = none ∧
  (Connect env2 st1).2.1.client = some sess2 ∧
  (Connect env2 st1).2.1.netConn = some conn2 ∧
  countDials (Connect env2 st1).2.2 = 1

/-! Helper lemmas about `connect` and the private `close` -/

/-- On a closed client, `connect` fails immediately with `ErrClientClosed`,
changes nothing, and performs no I/O. -/
theorem connect_closed (env : ConnectEnv) (caller : String) (st : ClientState)
    (h : st.closed = true) :
    connect env caller st = (.error .clientClosed, st, []) := by
  simp [connect, h]

/-- On a non-closed client that already has a session, `connect` returns it
immediately, changes nothing, and performs no I/O. -/
theorem connect_already (env : ConnectEnv) (caller : String) (st : ClientState)
    (cl : Nat) (hz : st.closed = false) (hc : st.client = some cl) :
    connect env caller st = (.ok cl, st, []) := by
  simp [connect, hz, hc]

/-- When `connect` returns a session, that session is the stored `client`
handle of the resulting state. -/
theorem connect_ok_client (env : ConnectEnv) (caller : String) (st : ClientState)
    (cl : Nat) (h : (connect env caller st).1 = .ok cl) :
    (connect env caller st).2.1.client = some cl := by
  obtain ⟨dr, wr, fr, rr, ncr⟩ := env
  obtain ⟨pk, u, cz, nc, clnt, rsp⟩ := st
  cases cz <;> cases clnt <;> cases dr <;> cases wr <;> cases fr <;> cases rr <;>
    cases ncr <;> simp_all [connect] <;> split_ifs at h <;> simp_all

/-- Function `connect` never touches the `closed` flag, the key, or the URL. -/
theorem connect_preserves (env : ConnectEnv) (caller : String) (st : ClientState) :
    (connect env caller st).2.1.closed = st.closed ∧
    (connect env caller st).2.1.privateKey = st.privateKey ∧
    (connect env caller st).2.1.url = st.url := by
  obtain ⟨dr, wr, fr, rr, ncr⟩ := env
  obtain ⟨pk, u, cz, nc, clnt, rsp⟩ := st
  cases cz <;> cases clnt <;> cases dr <;> cases wr <;> cases fr <;> cases rr <;>
    cases ncr <;> simp_all [connect] <;> split_ifs <;> simp_all

/-- A successful `connect` is only possible on a non-closed client. -/
theorem connect_ok_not_closed (env : ConnectEnv) (caller : String)
    (st : ClientState) (cl : Nat) (h : (connect env caller st).1 = .ok cl) :
    st.closed = false := by
  by_contra hc
  rw [connect_closed env caller st (by simpa using hc)] at h
  cases h

/-- A successful `connect` from the disconnected state performs exactly one
dial. -/
theorem connect_fresh_one_dial (env : ConnectEnv) (caller : String)
    (st : ClientState) (cl : Nat) (hc : st.client = none)
    (h : (connect env caller st).1 = .ok cl) :
    countDials (connect env caller st).2.2 = 1 := by
  obtain ⟨dr, wr, fr, rr, ncr⟩ := env
  obtain ⟨pk, u, cz, nc, clnt, rsp⟩ := st
  cases cz <;> cases clnt <;> cases dr <;> cases wr <;> cases fr <;> cases rr <;>
    cases ncr <;> simp_all [connect, countDials] <;> split_ifs at h <;>
    simp_all [countDials]

/-- Full characterization of a `connect` in which every I/O stage succeeds:
it dials, performs the upgrade handshake, constructs the session, and stores
both handles and the (body-emptied) 101 response. -/
theorem connect_envOK (env : ConnectEnv) (caller : String) (st : ClientState)
    (conn sess : Nat) (r : Resp) (hz : st.closed = false)
    (hc : st.client = none) (henv : envOK env conn sess r) :
    connect env caller st =
      (.ok sess,
        { st with
            netConn := some conn,
            client := some sess,
            resp := some (Resp.mk 101 "") },
        [.dial (st.url.scheme = "https") (dialAddr st.url),
          .writeReq (buildRequest st.url), .flush, .readResp, .sessionNew]) := by
  obtain ⟨hd, hw, hf, hr, hs, hn⟩ := henv
  simp [connect, hz, hc, hd, hw, hf, hr, hs, hn]

/-- The private `close` never touches the `closed` flag, the key, or the
URL. -/
theorem closeInternal_preserves (st : ClientState) :
    (closeInternal st).1.closed = st.closed ∧
    (closeInternal st).1.privateKey = st.privateKey ∧
    (closeInternal st).1.url = st.url := by
  obtain ⟨pk, u, cz, nc, clnt, rsp⟩ := st
  cases clnt <;> simp [closeInternal]

/-- After a `Send` whose session-send fails (the lazy connect itself having
succeeded), all connection state is discarded while the closed flag, key, and
URL are untouched — yet, because line 164's `if err := ...` shadows `err`,
the call returns the outer nil rather than the send error. -/
theorem Send_fail (env : ConnectEnv) (e : Err) (dstKey : Nat)
    (payload : List Nat) (st : ClientState) (cl : Nat)
    (h : (connect env "derphttp.Client.Send" st).1 = .ok cl) :
    (Send env (some e) dstKey payload st).1 = none ∧
    (Send env (some e) dstKey payload st).2.1.client = none ∧
    (Send env (some e) dstKey payload st).2.1.netConn = none ∧
    (Send env (some e) dstKey payload st).2.1.resp = none ∧
    (Send env (some e) dstKey payload st).2.1.closed = st.closed ∧
    (Send env (some e) dstKey payload st).2.1.url = st.url ∧
    (Send env (some e) dstKey payload st).2.1.privateKey = st.privateKey := by
  have hcl := connect_ok_client env "derphttp.Client.Send" st cl h
  have hpre := connect_preserves env "derphttp.Client.Send" st
  rcases hc : connect env "derphttp.Client.Send" st with ⟨res, st1, tr⟩
  rw [hc] at h hcl hpre
  simp only at h hcl hpre
  subst h
  simp [Send, hc, closeInternal, hcl, hpre.1, hpre.2.1, hpre.2.2]

/-- After a `Recv` whose session-receive fails (the lazy connect itself
having succeeded), the receive error is returned as the session reported it
(here `m, err := client.Recv(b)` reassigns the outer `err`, no shadowing)
and all connection state is discarded, while the closed flag, key, and URL
are untouched. -/
theorem Recv_fail (env : ConnectEnv) (e : Err) (st : ClientState) (cl : Nat)
    (h : (connect env "derphttp.Client.Recv" st).1 = .ok cl) :
    (Recv env (.error e) st).1 = .error e ∧
    (Recv env (.error e) st).2.1.client = none ∧
    (Recv env (.error e) st).2.1.netConn = none ∧
    (Recv env (.error e) st).2.1.resp = none ∧
    (Recv env (.error e) st).2.1.closed = st.closed ∧
    (Recv env (.error e) st).2.1.url = st.url ∧
    (Recv env (.error e) st).2.1.privateKey = st.privateKey := by
  have hcl := connect_ok_client env "derphttp.Client.Recv" st cl h
  have hpre := connect_preserves env "derphttp.Client.Recv" st
  rcases hc : connect env "derphttp.Client.Recv" st with ⟨res, st1, tr⟩
  rw [hc] at h hcl hpre
  simp only at h hcl hpre
  subst h
  simp [Recv, hc, closeInternal, hcl, hpre.1, hpre.2.1, hpre.2.2]

/-- Public `Close` on an already-closed client fails with `ErrClientClosed`, changes
nothing, and performs no I/O. -/
theorem Close_closed (st : ClientState) (h : st.closed = true) :
    Close st = (some .clientClosed, st, []) := by
  simp [Close, h]

/-- On a closed client every public operation is the identity on the state:
the closed-channel check fires before any I/O or mutation. -/
theorem stepState_closed_id (op : Op) (st : ClientState) (h : st.closed = true) :
    stepState op st = st := by
  cases op <;> simp [stepState, Connect, Send, Recv, Close, connect_closed, h]

/-- On a closed client every sequence of public operations is the identity. -/
theorem run_closed_id (ops : List Op) (st : ClientState) (h : st.closed = true) :
    run ops st = st := by
  induction ops with
  | nil => rfl
  | cons op ops ih =>
    show run ops (stepState op st) = st
    rw [stepState_closed_id op st h, ih]

/-- Function `connect` preserves the handle invariant (session handle set implies
transport handle set). -/
theorem connect_handleInv (env : ConnectEnv) (caller : String)
    (st : ClientState) (h : handleInv st) :
    handleInv (connect env caller st).2.1 := by
  obtain ⟨dr, wr, fr, rr, ncr⟩ := env
  obtain ⟨pk, u, cz, nc, clnt, rsp⟩ := st
  cases cz <;> cases clnt <;> cases dr <;> cases wr <;> cases fr <;> cases rr <;>
    cases ncr <;> simp_all [connect, handleInv] <;> split_ifs <;> simp_all

/-- The private `close` preserves the handle invariant. -/
theorem closeInternal_handleInv (st : ClientState) (h : handleInv st) :
    handleInv (closeInternal st).1 := by
  obtain ⟨pk, u, cz, nc, clnt, rsp⟩ := st
  cases clnt <;> simp_all [closeInternal, handleInv]

/-- Public `Connect` leaves the client in exactly the state the internal
`connect` produced. -/
theorem Connect_state (env : ConnectEnv) (st : ClientState) :
    (Connect env st).2.1 = (connect env "derphttp.Client.Connect" st).2.1 := by
  rcases hc : connect env "derphttp.Client.Connect" st with ⟨res, st1, tr⟩
  cases res <;> simp [Connect, hc]

/-- Every public operation preserves the handle invariant. -/
theorem stepState_handleInv (op : Op) (st : ClientState) (h : handleInv st) :
    handleInv (stepState op st) := by
  cases op with
  | connectOp env =>
    show handleInv (Connect env st).2.1
    rw [Connect_state]
    exact connect_handleInv env "derphttp.Client.Connect" st h
  | sendOp env sr d p =>
    have h1 := connect_handleInv env "derphttp.Client.Send" st h
    rcases hc : connect env "derphttp.Client.Send" st with ⟨res, st1, tr⟩
    rw [hc] at h1
    cases res with
    | error e => simp [stepState, Send, hc]; exact h1
    | ok cl =>
      cases sr with
      | none => simp [stepState, Send, hc]; exact h1
      | some e =>
        simp [stepState, Send, hc]
        exact closeInternal_handleInv st1 h1
  | recvOp env rr =>
    have h1 := connect_handleInv env "derphttp.Client.Recv" st h
    rcases hc : connect env "derphttp.Client.Recv" st with ⟨res, st1, tr⟩
    rw [hc] at h1
    cases res with
    | error e => simp [stepState, Recv, hc]; exact h1
    | ok cl =>
      cases rr with
      | ok m => simp [stepState, Recv, hc]; exact h1
      | error e =>
        simp [stepState, Recv, hc]
        exact closeInternal_handleInv st1 h1
  | closeOp =>
    by_cases hz : st.closed
    · simp [stepState, Close, hz]; exact h
    · simp [stepState, Close, hz]
      exact closeInternal_handleInv { st with closed := true } h

/-- Every sequence of public operations preserves the handle invariant. -/
theorem run_handleInv (ops : List Op) (st : ClientState) (h : handleInv st) :
    handleInv (run ops st) := by
  induction ops generalizing st with
  | nil => exact h
  | cons op ops ih =>
    exact ih (stepState op st) (stepState_handleInv op st h)

/-- A single pass through `connect` dials at most once. -/
theorem connect_dials_le_one (env : ConnectEnv) (caller : String)
    (st : ClientState) : countDials (connect env caller st).2.2 ≤ 1 := by
  obtain ⟨dr, wr, fr, rr, ncr⟩ := env
  obtain ⟨pk, u, cz, nc, clnt, rsp⟩ := st
  cases cz <;> cases clnt <;> cases dr <;> cases wr <;> cases fr <;> cases rr <;>
    cases ncr <;> simp_all [connect, countDials] <;> split_ifs <;>
    simp_all [countDials]

/-- Function `connect` itself never performs a delegated session send. -/
theorem connect_no_sessionSend (env : ConnectEnv) (caller : String)
    (st : ClientState) : countSessionSends (connect env caller st).2.2 = 0 := by
  obtain ⟨dr, wr, fr, rr, ncr⟩ := env
  obtain ⟨pk, u, cz, nc, clnt, rsp⟩ := st
  cases cz <;> cases clnt <;> cases dr <;> cases wr <;> cases fr <;> cases rr <;>
    cases ncr <;> simp_all [connect, countSessionSends] <;> split_ifs <;>
    simp_all [countSessionSends]

/-- The private `close` performs no dial and no session send. -/
theorem closeInternal_trace (st : ClientState) :
    countDials (closeInternal st).2 = 0 ∧
    countSessionSends (closeInternal st).2 = 0 := by
  obtain ⟨pk, u, cz, nc, clnt, rsp⟩ := st
  cases nc <;> cases clnt <;> simp [closeInternal, countDials, countSessionSends]

/-- Counter `countDials` distributes over appended traces. -/
theorem countDials_append (a b : List IOEvent) :
    countDials (a ++ b) = countDials a + countDials b := by
  simp [countDials, List.countP_append]

/-- Counter `countSessionSends` distributes over appended traces. -/
theorem countSessionSends_append (a b : List IOEvent) :
    countSessionSends (a ++ b) = countSessionSends a + countSessionSends b := by
  simp [countSessionSends, List.countP_append]

/-- Trace of a `Send` whose session-send fails after a successful lazy
connect: the connect trace, one session send, then the private close. -/
theorem Send_fail_trace (env : ConnectEnv) (e : Err) (dstKey : Nat)
    (payload : List Nat) (st : ClientState) (cl : Nat)
    (h : (connect env "derphttp.Client.Send" st).1 = .ok cl) :
    (Send env (some e) dstKey payload st).2.2 =
      (connect env "derphttp.Client.Send" st).2.2 ++ [.sessionSend] ++
        (closeInternal (connect env "derphttp.Client.Send" st).2.1).2 := by
  rcases hc : connect env "derphttp.Client.Send" st with ⟨res, st1, tr⟩
  rw [hc] at h
  simp only at h
  subst h
  simp [Send, hc]

/-! Claims section: C1 -/

/-- C1 (code bug): evaluation of `Send` at the failing input — a fresh
client over `http://relay.example/derp`, a fully successful connect, and a
session send that fails with `broken pipe`.  The client tears down all
connection state (session handle, transport handle, stored response),
attempts the send exactly once, and dials at most once — but the call
returns nil (`none`), not the send failure: `if err := client.Send(dstKey,
b); err != nil` at line 164 declares a new `err` scoped to that if
statement, so `return err` at line 167 returns the outer nil.  This
contradicts the claim, and the Client's own doc comment (lines 33-36, "a
failed Send or Recv will report the error"). -/
theorem send_failure_swallowed :
    (Send exampleEnvOK (some (Err.mk "broken pipe")) 5 [1, 2]
      (NewClient 0 exampleURL)).1 = none ∧
    (Send exampleEnvOK (some (Err.mk "broken pipe")) 5 [1, 2]
      (NewClient 0 exampleURL)).2.1.client = none ∧
    (Send exampleEnvOK (some (Err.mk "broken pipe")) 5 [1, 2]
      (NewClient 0 exampleURL)).2.1.netConn = none ∧
    (Send exampleEnvOK (some (Err.mk "broken pipe")) 5 [1, 2]
      (NewClient 0 exampleURL)).2.1.resp = none ∧
    countSessionSends (Send exampleEnvOK (some (Err.mk "broken pipe")) 5
      [1, 2] (NewClient 0 exampleURL)).2.2 = 1 ∧
    countDials (Send exampleEnvOK (some (Err.mk "broken pipe")) 5 [1, 2]
      (NewClient 0 exampleURL)).2.2 ≤ 1 ∧
    ¬ (Send exampleEnvOK (some (Err.mk "broken pipe")) 5 [1, 2]
      (NewClient 0 exampleURL)).1 = some (Err.mk "broken pipe") := by
  refine ⟨?_, ?_, ?_, ?_, ?_, ?_, ?_⟩ <;> decide

/-! Claims section: C4 -/

/-- C4: `Connect` is idempotent.  On a non-closed client that already holds a
session, `Connect` returns success immediately with no I/O and an unchanged
state; and two sequential `Connect` calls on a disconnected client with no
intervening failure perform exactly one dial/handshake — the second returns
immediately with no I/O and an unchanged state. -/
theorem connect_idempotent (st st2 : ClientState) (env env2 : ConnectEnv)
    (cl : Nat) (h1 : st.closed = false) (h2 : st.client = some cl)
    (h3 : st2.client = none) (h4 : (Connect env st2).1 = none) :
    Connect env st = (none, st, []) ∧
    countDials (Connect env st2).2.2 = 1 ∧
    Connect env2 (Connect env st2).2.1 = (none, (Connect env st2).2.1, []) := by
  refine ⟨by simp [Connect, connect_already env "derphttp.Client.Connect" st cl h1 h2],
    ?_⟩
  rcases hc : connect env "derphttp.Client.Connect" st2 with ⟨res, st1, tr⟩
  cases res with
  | error e => simp [Connect, hc] at h4
  | ok s =>
    have hcl := connect_ok_client env "derphttp.Client.Connect" st2 s (by rw [hc])
    have hz2 := connect_ok_not_closed env "derphttp.Client.Connect" st2 s (by rw [hc])
    have hpre := connect_preserves env "derphttp.Client.Connect" st2
    have hdials := connect_fresh_one_dial env "derphttp.Client.Connect" st2 s h3
      (by rw [hc])
    rw [hc] at hcl hpre hdials
    simp only at hcl hpre hdials
    constructor
    · simpa [Connect, hc] using hdials
    · simp [Connect, hc,
        connect_already env2 "derphttp.Client.Connect" st1 s
          (hpre.1.trans hz2) hcl]

/-- Witness for C4: an already-connected client (session 3, transport 2) and
a fresh client, both over `http://relay.example/derp`, with a fully
successful environment. -/
theorem connect_idempotent_witness :
    ({ NewClient 0 exampleURL with
        netConn := some 2, client := some 3 } : ClientState).closed = false ∧
    ({ NewClient 0 exampleURL with
        netConn := some 2, client := some 3 } : ClientState).client = some 3 ∧
    (NewClient 0 exampleURL).client = none ∧
    (Connect exampleEnvOK (NewClient 0 exampleURL)).1 = none ∧
    (Connect exampleEnvOK
        { NewClient 0 exampleURL with netConn := some 2, client := some 3 } =
      (none, { NewClient 0 exampleURL with netConn := some 2, client := some 3 },
        []) ∧
      countDials (Connect exampleEnvOK (NewClient 0 exampleURL)).2.2 = 1 ∧
      Connect exampleEnvOK (Connect exampleEnvOK (NewClient 0 exampleURL)).2.1 =
        (none, (Connect exampleEnvOK (NewClient 0 exampleURL)).2.1, [])) :=
  ⟨by decide, by decide, by decide, by decide,
    connect_idempotent
      { NewClient 0 exampleURL with netConn := some 2, client := some 3 }
      (NewClient 0 exampleURL) exampleEnvOK exampleEnvOK 3
      (by decide) (by decide) (by decide) (by decide)⟩

/-! Claims section: C5 -/

/-- C5: `Close` is terminal and one-shot.  After the first successful
`Close`, the closed flag is set; every subsequent `Connect`, `Send`, `Recv`,
and `Close` fails with `ErrClientClosed`, changes nothing, and performs no
I/O; and no sequence of operations ever unsets the closed flag. -/
theorem close_terminal (st : ClientState) (h : (Close st).1 = none) :
    (Close st).2.1.closed = true ∧
    (∀ env, Connect env (Close st).2.1 =
      (some .clientClosed, (Close st).2.1, [])) ∧
    (∀ env sr dstKey payload, Send env sr dstKey payload (Close st).2.1 =
      (some .clientClosed, (Close st).2.1, [])) ∧
    (∀ env rr, Recv env rr (Close st).2.1 =
      (.error .clientClosed, (Close st).2.1, [])) ∧
    Close (Close st).2.1 = (some .clientClosed, (Close st).2.1, []) ∧
    (∀ ops, (run ops (Close st).2.1).closed = true) := by
  by_cases hz : st.closed
  · simp [Close, hz] at h
  · have hcz : (Close st).2.1.closed = true := by
      simp only [Bool.not_eq_true] at hz
      simp [Close, hz, (closeInternal_preserves { st with closed := true }).1]
    refine ⟨hcz, ?_, ?_, ?_, ?_, ?_⟩
    · intro env
      simp [Connect, connect_closed env "derphttp.Client.Connect" _ hcz]
    · intro env sr dstKey payload
      simp [Send, connect_closed env "derphttp.Client.Send" _ hcz]
    · intro env rr
      simp [Recv, connect_closed env "derphttp.Client.Recv" _ hcz]
    · exact Close_closed _ hcz
    · intro ops
      rw [run_closed_id ops _ hcz]
      exact hcz

/-- Witness for C5: closing a fresh client over `http://relay.example/derp`,
then observing that Connect, Send, Recv, Close, and a further operation
sequence all see the closed state. -/
theorem close_terminal_witness :
    (Close (NewClient 0 exampleURL)).1 = none ∧
    ((Close (NewClient 0 exampleURL)).2.1.closed = true ∧
      Connect exampleEnvOK (Close (NewClient 0 exampleURL)).2.1 =
        (some .clientClosed, (Close (NewClient 0 exampleURL)).2.1, []) ∧
      Send exampleEnvOK none 5 [1, 2] (Close (NewClient 0 exampleURL)).2.1 =
        (some .clientClosed, (Close (NewClient 0 exampleURL)).2.1, []) ∧
      Recv exampleEnvOK (.ok 4) (Close (NewClient 0 exampleURL)).2.1 =
        (.error .clientClosed, (Close (NewClient 0 exampleURL)).2.1, []) ∧
      Close (Close (NewClient 0 exampleURL)).2.1 =
        (some .clientClosed, (Close (NewClient 0 exampleURL)).2.1, []) ∧
      (run [.connectOp exampleEnvOK, .closeOp]
        (Close (NewClient 0 exampleURL)).2.1).closed = true) := by
  have ht := close_terminal (NewClient 0 exampleURL) (by decide)
  exact ⟨by decide, ht.1, ht.2.1 exampleEnvOK,
    ht.2.2.1 exampleEnvOK none 5 [1, 2], ht.2.2.2.1 exampleEnvOK (.ok 4),
    ht.2.2.2.2.1, ht.2.2.2.2.2 [.connectOp exampleEnvOK, .closeOp]⟩

/-! Claims section: C10 -/

/-- C10: `Close` on a fresh, never-connected client succeeds (returns nil),
performs no I/O, and leaves both handles absent; only the second `Close`
fails with `ErrClientClosed`. -/
theorem close_fresh_client (pk : Nat) (u : URL) :
    Close (NewClient pk u) =
      (none, { NewClient pk u with closed := true }, []) ∧
    (Close (NewClient pk u)).2.1.netConn = none ∧
    (Close (NewClient pk u)).2.1.client = none ∧
    (Close (Close (NewClient pk u)).2.1).1 = some .clientClosed := by
  refine ⟨?_, ?_, ?_, ?_⟩ <;> simp [Close, NewClient, closeInternal]

/-! Claims section: C6 -/

/-- Helper: from any non-closed, disconnected client state, a `Send`,
`Recv`, or `Connect` in a fully healthy environment each succeeds with
exactly one fresh dial/handshake and ends holding that environment's
connection and session handles. -/
theorem selfHeals_of_disconnected (st1 : ClientState) (env2 : ConnectEnv)
    (conn2 sess2 dstKey2 m : Nat) (payload2 : List Nat) (r2 : Resp)
    (hz : st1.closed = false) (hcl : st1.client = none)
    (henv : envOK env2 conn2 sess2 r2) :
    selfHeals st1 env2 conn2 sess2 dstKey2 m payload2 := by
  have hcS := connect_envOK env2 "derphttp.Client.Send" st1 conn2 sess2 r2
    hz hcl henv
  have hcR := connect_envOK env2 "derphttp.Client.Recv" st1 conn2 sess2 r2
    hz hcl henv
  have hcC := connect_envOK env2 "derphttp.Client.Connect" st1 conn2 sess2 r2
    hz hcl henv
  unfold selfHeals
  refine ⟨?_, ?_, ?_, ?_, ?_, ?_, ?_, ?_, ?_, ?_, ?_, ?_⟩ <;>
    simp [Send, Recv, Connect, hcS, hcR, hcC, countDials_append, countDials]

/-- C6: self-healing.  After a `Send` or a `Recv` whose delegated session
call failed has torn down the connection state of a non-closed client, the
next `Send`, `Recv`, or `Connect` call performs exactly one fresh
dial/handshake — ending with the new environment's connection and session
handles, not any handle of the failed session — and succeeds when no further
faults occur. -/
theorem connection_self_healing (st : ClientState)
    (envS envR env2 : ConnectEnv) (e eR : Err)
    (dstKey dstKey2 m clS clR conn2 sess2 : Nat)
    (payload payload2 : List Nat) (r2 : Resp)
    (hz : st.closed = false)
    (hconnS : (connect envS "derphttp.Client.Send" st).1 = .ok clS)
    (hconnR : (connect envR "derphttp.Client.Recv" st).1 = .ok clR)
    (henv2 : envOK env2 conn2 sess2 r2) :
    selfHeals (Send envS (some e) dstKey payload st).2.1 env2 conn2 sess2
      dstKey2 m payload2 ∧
    selfHeals (Recv envR (.error eR) st).2.1 env2 conn2 sess2
      dstKey2 m payload2 := by
  obtain ⟨-, hclS, -, -, hzS, -, -⟩ := Send_fail envS e dstKey payload st clS hconnS
  obtain ⟨-, hclR, -, -, hzR, -, -⟩ := Recv_fail envR eR st clR hconnR
  rw [hz] at hzS hzR
  exact ⟨selfHeals_of_disconnected _ env2 conn2 sess2 dstKey2 m payload2 r2
      hzS hclS henv2,
    selfHeals_of_disconnected _ env2 conn2 sess2 dstKey2 m payload2 r2
      hzR hclR henv2⟩

/-- Witness for C6: a send failure and a receive failure on fresh clients
over `http://relay.example/derp`, each followed by healthy Send/Recv/Connect
calls in the `exampleEnvOK` environment. -/
theorem connection_self_healing_witness :
    (NewClient 0 exampleURL).closed = false ∧
    (connect exampleEnvOK "derphttp.Client.Send" (NewClient 0 exampleURL)).1 =
      .ok 9 ∧
    (connect exampleEnvOK "derphttp.Client.Recv" (NewClient 0 exampleURL)).1 =
      .ok 9 ∧
    envOK exampleEnvOK 7 9 (Resp.mk 101 "") ∧
    (selfHeals (Send exampleEnvOK (some (Err.mk "broken pipe")) 5 [1, 2]
        (NewClient 0 exampleURL)).2.1 exampleEnvOK 7 9 6 11 [3] ∧
      selfHeals (Recv exampleEnvOK (.error (Err.mk "use of closed connection"))
        (NewClient 0 exampleURL)).2.1 exampleEnvOK 7 9 6 11 [3]) :=
  ⟨by decide, by decide, by decide, by decide,
    connection_self_healing (NewClient 0 exampleURL) exampleEnvOK exampleEnvOK
      exampleEnvOK (Err.mk "broken pipe") (Err.mk "use of closed connection")
      5 6 11 9 9 7 9 [1, 2] [3] (Resp.mk 101 "")
      (by decide) (by decide) (by decide) (by decide)⟩

/-! Claims section: C7 -/

/-- C7: when the upgrade response reads successfully but its status is not
101, `connect` returns a non-nil failure whose message carries the response
body — formatted around the empty (`<nil>`) error value of the successful
read — and never returns success on such a response. -/
theorem upgrade_rejected_diagnostic (env : ConnectEnv) (caller : String)
    (st : ClientState) (conn : Nat) (r : Resp)
    (hz : st.closed = false) (hcl : st.client = none)
    (hd : env.dialResult = .ok conn) (hw : env.writeResult = none)
    (hf : env.flushResult = none) (hr : env.readResult = .ok r)
    (hs : r.statusCode ≠ 101) :
    (connect env caller st).1 =
      .error (.mk (caller ++ " connect: " ++
        ("GET failed: <nil>: " ++ r.body))) ∧
    ∀ sess, (connect env caller st).1 ≠ .ok sess := by
  have hmain : (connect env caller st).1 =
      .error (.mk (caller ++ " connect: " ++
        ("GET failed: <nil>: " ++ r.body))) := by
    simp [connect, hz, hcl, hd, hw, hf, hr, hs, Err.message]
  refine ⟨hmain, ?_⟩
  intro sess
  rw [hmain]
  simp

/-- Witness for C7: the server answers 200 with body "not a derp server". -/
theorem upgrade_rejected_diagnostic_witness :
    (NewClient 0 exampleURL).closed = false ∧
    (NewClient 0 exampleURL).client = none ∧
    exampleEnvReject.dialResult = .ok 7 ∧
    exampleEnvReject.readResult = .ok (Resp.mk 200 "not a derp server") ∧
    ((connect exampleEnvReject "derphttp.Client.Connect"
        (NewClient 0 exampleURL)).1 =
      .error (.mk ("derphttp.Client.Connect" ++ " connect: " ++
        ("GET failed: <nil>: " ++ (Resp.mk 200 "not a derp server").body))) ∧
      ∀ sess, (connect exampleEnvReject "derphttp.Client.Connect"
        (NewClient 0 exampleURL)).1 ≠ .ok sess) :=
  ⟨by decide, by decide, by decide, by decide,
    upgrade_rejected_diagnostic exampleEnvReject "derphttp.Client.Connect"
      (NewClient 0 exampleURL) 7 (Resp.mk 200 "not a derp server")
      (by decide) (by decide) (by decide) (by decide) (by decide) (by decide)
      (by decide)⟩

/-! Claims section: C8 -/

/-- C8: the upgrade request `connect` writes is a GET addressed to the
endpoint's path carrying exactly the header fields `Upgrade: WebSocket` and
`Connection: Upgrade`; and, whenever a response is read, `connect` proceeds
to session construction if and only if its status is 101. -/
theorem handshake_request_shape (env : ConnectEnv) (caller : String)
    (st : ClientState) (conn : Nat) (r : Resp)
    (hz : st.closed = false) (hcl : st.client = none)
    (hd : env.dialResult = .ok conn) (hw : env.writeResult = none)
    (hf : env.flushResult = none) (hr : env.readResult = .ok r) :
    buildRequest st.url =
      Request.mk "GET" st.url.path
        [("Upgrade", "WebSocket"), ("Connection", "Upgrade")] ∧
    IOEvent.writeReq (buildRequest st.url) ∈ (connect env caller st).2.2 ∧
    (IOEvent.sessionNew ∈ (connect env caller st).2.2 ↔ r.statusCode = 101) := by
  refine ⟨rfl, ?_, ?_⟩ <;>
    by_cases hs : r.statusCode = 101 <;>
    cases hn : env.newClientResult <;>
    simp [connect, hz, hcl, hd, hw, hf, hr, hs, hn]

/-- Witness for C8: a fresh client over `http://relay.example/derp` in the
healthy environment; the request shape and the 101-iff-session-construction
equivalence instantiated there. -/
theorem handshake_request_shape_witness :
    (NewClient 0 exampleURL).closed = false ∧
    (NewClient 0 exampleURL).client = none ∧
    exampleEnvOK.readResult = .ok (Resp.mk 101 "") ∧
    (buildRequest (NewClient 0 exampleURL).url =
      Request.mk "GET" (NewClient 0 exampleURL).url.path
        [("Upgrade", "WebSocket"), ("Connection", "Upgrade")] ∧
      IOEvent.writeReq (buildRequest (NewClient 0 exampleURL).url) ∈
        (connect exampleEnvOK "derphttp.Client.Connect"
          (NewClient 0 exampleURL)).2.2 ∧
      (IOEvent.sessionNew ∈ (connect exampleEnvOK "derphttp.Client.Connect"
          (NewClient 0 exampleURL)).2.2 ↔
        (Resp.mk 101 "").statusCode = 101)) :=
  ⟨by decide, by decide, by decide,
    handshake_request_shape exampleEnvOK "derphttp.Client.Connect"
      (NewClient 0 exampleURL) 7 (Resp.mk 101 "") (by decide) (by decide)
      (by decide) (by decide) (by decide) (by decide)⟩

/-! Claims section: C9 -/

/-- C9 (code bug): the https dial-address computation.  When the URL carries
an explicit port, `connect` passes `c.url.Host` — which already contains the
port — to `net.JoinHostPort`, producing the malformed address
`[host:port]:port` instead of `host:port`; the claimed behavior only holds
when no port is given (default 443) or for non-https schemes.  The last
conjunct shows the malformed address is what the dial attempt actually
uses. -/
theorem dial_address_bug :
    dialAddr httpsPortURL = "[relay.example:8443]:8443" ∧
    dialAddr httpsPortURL ≠ "relay.example:8443" ∧
    dialAddr httpsNoPortURL = "relay.example:443" ∧
    dialAddr exampleURL = "relay.example" ∧
    (Connect exampleEnvDialFail (NewClient 0 httpsPortURL)).2.2 =
      [IOEvent.dial true "[relay.example:8443]:8443"] := by
  refine ⟨?_, ?_, ?_, ?_, ?_⟩ <;> decide

/-! Claims section: C2 -/

/-- Counterexample to C2 as stated: a `Connect` on a fresh client over
`http://relay.example/derp` that dials connection 7 and is then rejected with
a 200 response fails — yet the resulting state's raw transport handle still
holds the (closed) connection 7, not absent as the claim requires. -/
theorem connect_failure_retains_netConn_cex :
    ((Connect exampleEnvReject (NewClient 0 exampleURL)).1).isSome = true ∧
    (Connect exampleEnvReject (NewClient 0 exampleURL)).2.1.netConn = some 7 ∧
    ¬ (Connect exampleEnvReject (NewClient 0 exampleURL)).2.1 =
      NewClient 0 exampleURL := by
  refine ⟨?_, ?_, ?_⟩ <;> decide

/-- C2 amended: on every failing stage of `connect` (from a non-closed,
disconnected client) the error is reported, the session handle and stored
response stay absent, and any partially-opened raw transport is closed — but
the state is only left exactly as before when the failure is at the dial
stage; when a later stage fails, the raw transport field retains the
now-closed connection. -/
theorem connect_failure_cleanup_amended (env : ConnectEnv) (caller : String)
    (st : ClientState) (e : Err)
    (hz : st.closed = false) (hcl : st.client = none)
    (herr : (connect env caller st).1 = .error e) :
    (connect env caller st).2.1.client = none ∧
    (connect env caller st).2.1.resp = st.resp ∧
    (∀ de, env.dialResult = .error de → (connect env caller st).2.1 = st) ∧
    (∀ conn, env.dialResult = .ok conn →
      (connect env caller st).2.1 = { st with netConn := some conn } ∧
      IOEvent.closeConn conn ∈ (connect env caller st).2.2) := by
  obtain ⟨dr, wr, fr, rr, ncr⟩ := env
  obtain ⟨pk, u, cz, nc, clnt, rsp⟩ := st
  cases cz <;> cases clnt <;> cases dr <;> cases wr <;> cases fr <;> cases rr <;>
    cases ncr <;> simp_all [connect] <;> split_ifs <;> simp_all

/-- Witness for C2's amended theorem at the upgrade-rejection input: the
session handle and response stay absent, the transport field keeps the closed
connection 7, and the trace shows it being closed. -/
theorem connect_failure_cleanup_amended_witness :
    (NewClient 0 exampleURL).closed = false ∧
    (NewClient 0 exampleURL).client = none ∧
    (connect exampleEnvReject "derphttp.Client.Connect"
      (NewClient 0 exampleURL)).1 =
      .error (.mk "derphttp.Client.Connect connect: GET failed: <nil>: not a derp server") ∧
    ((connect exampleEnvReject "derphttp.Client.Connect"
        (NewClient 0 exampleURL)).2.1.client = none ∧
      (connect exampleEnvReject "derphttp.Client.Connect"
        (NewClient 0 exampleURL)).2.1.resp = (NewClient 0 exampleURL).resp ∧
      (connect exampleEnvReject "derphttp.Client.Connect"
        (NewClient 0 exampleURL)).2.1 =
        { NewClient 0 exampleURL with netConn := some 7 } ∧
      IOEvent.closeConn 7 ∈ (connect exampleEnvReject "derphttp.Client.Connect"
        (NewClient 0 exampleURL)).2.2) := by
  have hA := connect_failure_cleanup_amended exampleEnvReject
    "derphttp.Client.Connect" (NewClient 0 exampleURL)
    (.mk "derphttp.Client.Connect connect: GET failed: <nil>: not a derp server")
    (by decide) (by decide) (by decide)
  exact ⟨by decide, by decide, by decide,
    hA.1, hA.2.1, (hA.2.2.2 7 (by decide)).1, (hA.2.2.2 7 (by decide)).2⟩

/-! Claims section: C3 -/

/-- Counterexample to C3 as stated: after a `Connect` whose handshake flush
fails (dial succeeded as connection 4), the raw transport handle is set while
the session handle is absent — the handles are not "both set or both absent"
after this public operation. -/
theorem handles_desync_after_failed_connect_cex :
    (Connect exampleEnvFlushFail (NewClient 0 exampleURL)).2.1.netConn = some 4 ∧
    (Connect exampleEnvFlushFail (NewClient 0 exampleURL)).2.1.client = none ∧
    ¬ ((Connect exampleEnvFlushFail (NewClient 0 exampleURL)).2.1.netConn.isSome =
      (Connect exampleEnvFlushFail (NewClient 0 exampleURL)).2.1.client.isSome) := by
  refine ⟨?_, ?_, ?_⟩ <;> decide

/-- C3 amended: in every sequence of public operations from a fresh client,
the one-sided invariant holds — the session handle is never set without the
raw transport handle (the converse can fail after a post-dial connect
failure); and after a `Send` failure on an established session both handles
are absent. -/
theorem handle_invariant_amended (pk : Nat) (u : URL) (ops : List Op)
    (env : ConnectEnv) (e : Err) (dstKey : Nat) (payload : List Nat)
    (st : ClientState) (cl : Nat)
    (hconn : (connect env "derphttp.Client.Send" st).1 = .ok cl) :
    handleInv (run ops (NewClient pk u)) ∧
    (Send env (some e) dstKey payload st).2.1.client = none ∧
    (Send env (some e) dstKey payload st).2.1.netConn = none := by
  refine ⟨run_handleInv ops _ ?_, (Send_fail env e dstKey payload st cl hconn).2.1,
    (Send_fail env e dstKey payload st cl hconn).2.2.1⟩
  intro h
  simp [NewClient] at h

/-- Witness for C3's amended theorem: a sequence that connects, suffers a
failed connect, and closes, plus a concrete send failure. -/
theorem handle_invariant_amended_witness :
    (connect exampleEnvOK "derphttp.Client.Send" (NewClient 0 exampleURL)).1 =
      .ok 9 ∧
    (handleInv (run [.connectOp exampleEnvOK, .sendOp exampleEnvOK
        (some (Err.mk "broken pipe")) 5 [1, 2],
        .connectOp exampleEnvFlushFail, .closeOp] (NewClient 0 exampleURL)) ∧
      (Send exampleEnvOK (some (Err.mk "broken pipe")) 5 [1, 2]
        (NewClient 0 exampleURL)).2.1.client = none ∧
      (Send exampleEnvOK (some (Err.mk "broken pipe")) 5 [1, 2]
        (NewClient 0 exampleURL)).2.1.netConn = none) :=
  ⟨by decide,
    handle_invariant_amended 0 exampleURL
      [.connectOp exampleEnvOK, .sendOp exampleEnvOK
        (some (Err.mk "broken pipe")) 5 [1, 2],
        .connectOp exampleEnvFlushFail, .closeOp]
      exampleEnvOK (Err.mk "broken pipe") 5 [1, 2] (NewClient 0 exampleURL) 9
      (by decide)⟩

end Derphttp
